import Mathlib

/-!
Shallow embedding of the verification pipeline of src/bot.py (Telegram
student verification bot, SheerID API client).

Modelling conventions:
- Python random.randint(a, b) is modelled by pyRandint a b n = a + n % (b - a + 1)
  for an arbitrary entropy input n; every value of [a, b] is reachable and no
  value outside it is, so universally quantifying over the entropy inputs
  ranges exactly over the outputs the code can produce.
- Python random.choice(l) is modelled by pyChoice l d n = l.getD (n % l.length) d;
  the default d is never used because every call site passes a non-empty list.
- Network traffic is modelled by environment records carrying the response each
  HTTP call would receive (status code plus the JSON fields the code reads);
  a raised exception is modelled by an explicit constructor or field, since the
  Python code wraps each network on try/except and maps every exception to a
  result value.
- Python regular-expression search with re.IGNORECASE is modelled by an explicit
  leftmost scan (scanSuffixes) with case-insensitive literal matching and a
  greedy hexadecimal capture, which is exactly the behaviour of the three
  concrete patterns used by extract_verification_id.
-/

/-- ASCII lower casing on character codes, the effect of re.IGNORECASE and of
Python str.lower on the ASCII data used by the bot. -/
def asciiLowerNat (n : Nat) : Nat := if 65 ≤ n ∧ n ≤ 90 then n + 32 else n

/-- Case-insensitive character comparison (re.IGNORECASE). -/
def lcEq (a b : Char) : Bool := asciiLowerNat a.toNat == asciiLowerNat b.toNat

/-- Membership in the character class [a-f0-9] under re.IGNORECASE. -/
def isHexCI (c : Char) : Bool :=
  (97 ≤ asciiLowerNat c.toNat && asciiLowerNat c.toNat ≤ 102) ||
  (48 ≤ asciiLowerNat c.toNat && asciiLowerNat c.toNat ≤ 57)

/-- ASCII lower casing of one character (Python str.lower on ASCII). -/
def asciiLowerChar (c : Char) : Char :=
  if 65 ≤ c.toNat ∧ c.toNat ≤ 90 then Char.ofNat (c.toNat + 32) else c

/-- Python str.lower restricted to the ASCII strings used by the bot. -/
def pyLower (s : String) : String := ⟨s.data.map asciiLowerChar⟩

/-- Python s[0] as a one-character string (empty input gives the empty string). -/
def pyFirstChar (s : String) : String := ⟨s.data.take 1⟩

/-- Characters stripped by Python str.strip with no argument. -/
def isPySpace (c : Char) : Bool :=
  c == ' ' || c == '\t' || c == '\n' || c == '\r' || c == '\x0b' || c == '\x0c'

/-- List-level Python str.strip. -/
def stripList (l : List Char) : List Char :=
  ((l.dropWhile isPySpace).reverse.dropWhile isPySpace).reverse

/-- Python str.strip with no argument. -/
def pyStrip (s : String) : String := ⟨stripList s.data⟩

/-- Case-sensitive literal test: the first argument is a leading block of the
second (used for the Python substring operator). -/
def startsWithL : List Char → List Char → Bool
  | [], _ => true
  | _ :: _, [] => false
  | a :: as, b :: bs => a == b && startsWithL as bs

/-- Leftmost scan: try P on each tail of the list, left to right, and return
the first hit.  This is the search order of Python re.search and of the
substring operator. -/
def scanSuffixes {α : Type} (P : List Char → Option α) : List Char → Option α
  | [] => P []
  | c :: cs =>
    match P (c :: cs) with
    | some r => some r
    | none => scanSuffixes P cs

/-- List-level Python substring operator (lit in l). -/
def listIn (lit l : List Char) : Bool :=
  (scanSuffixes (fun t => if startsWithL lit t then some () else none) l).isSome

/-- Python substring operator on strings (lit in s). -/
def pyIn (lit s : String) : Bool := listIn lit.data s.data

/-- Case-insensitive literal match at the head of the list, returning the
remainder on success (one step of matching a regex literal under
re.IGNORECASE). -/
def dropLitCI : List Char → List Char → Option (List Char)
  | [], t => some t
  | _ :: _, [] => none
  | a :: as, b :: bs => if lcEq a b then dropLitCI as bs else none

/-- Match, at a fixed position, a case-insensitive literal followed by a
greedy non-empty run of [a-f0-9] characters, returning the captured run.
This is the anchored semantics of the patterns of extract_verification_id. -/
def matchAt (lit : List Char) (t : List Char) : Option (List Char) :=
  match dropLitCI lit t with
  | none => none
  | some rest =>
    match rest.takeWhile isHexCI with
    | [] => none
    | c :: cs => some (c :: cs)

/-- Python re.search of one pattern lit([a-f0-9]+) with re.IGNORECASE:
leftmost position wins, capture is greedy. -/
def searchPat (lit : List Char) (l : List Char) : Option (List Char) :=
  scanSuffixes (matchAt lit) l

/-- Python random.randint(a, b), driven by an explicit entropy input. -/
def pyRandint (a b n : Nat) : Nat := a + n % (b - a + 1)

/-- Python random.choice, driven by an explicit entropy input; the default is
irrelevant on the non-empty lists the bot uses. -/
def pyChoice {α : Type} (l : List α) (d : α) (n : Nat) : α :=
  l.getD (n % l.length) d

/-- Two-digit zero padding, the Python format specifier 02d on the values the
bot feeds it. -/
def pad2 (n : Nat) : String := if n < 10 then "0" ++ toString n else toString n

/-- The text after the last at-sign of a string, used to state the email
domain invariant. -/
def emailDomain (s : String) : String :=
  ⟨(s.data.reverse.takeWhile (fun c => c != '@')).reverse⟩

/-- One organization row of the UNIVERSITIES table (src/bot.py lines 69-80). -/
structure University where
  id : Nat
  name : String
  domain : String
  weight : Nat
deriving DecidableEq

/-- The UNIVERSITIES table (src/bot.py lines 69-80). -/
def UNIVERSITIES : List University :=
  [ ⟨2565, "Pennsylvania State University", "psu.edu", 95⟩,
    ⟨3499, "UCLA", "ucla.edu", 94⟩,
    ⟨3491, "UC Berkeley", "berkeley.edu", 93⟩,
    ⟨3113, "Stanford University", "stanford.edu", 96⟩,
    ⟨2285, "New York University", "nyu.edu", 92⟩,
    ⟨3568, "University of Michigan", "umich.edu", 91⟩,
    ⟨3686, "UT Austin", "utexas.edu", 90⟩,
    ⟨1217, "Georgia Tech", "gatech.edu", 89⟩,
    ⟨602, "Carnegie Mellon", "cmu.edu", 88⟩,
    ⟨3477, "UC San Diego", "ucsd.edu", 87⟩ ]

/-- The FIRST_NAMES table (src/bot.py line 82). -/
def FIRST_NAMES : List String :=
  ["James", "John", "Michael", "David", "Robert", "William", "Richard",
   "Joseph", "Thomas", "Charles"]

/-- The LAST_NAMES table (src/bot.py line 83). -/
def LAST_NAMES : List String :=
  ["Smith", "Johnson", "Williams", "Brown", "Jones", "Garcia", "Miller",
   "Davis", "Rodriguez", "Martinez"]

/-- Entropy consumed by one call of generate_student_data, one field per call
of the random module in source order. -/
structure Entropy where
  uni : Nat
  fn : Nat
  ln : Nat
  n1 : Nat
  n2 : Nat
  n3 : Nat
  pat : Nat
  y : Nat
  m : Nat
  d : Nat
  sid : Nat
deriving DecidableEq

/-- The dictionary returned by generate_student_data (src/bot.py lines 108-115). -/
structure StudentData where
  first_name : String
  last_name : String
  email : String
  birth_date : String
  university : University
  student_id : String
deriving DecidableEq

/-- A calendar date, for stating the age properties of the generated birth
date. -/
structure Date where
  year : Nat
  month : Nat
  day : Nat
deriving DecidableEq

/-- The birth date produced by src/bot.py lines 100-102: year drawn from the
fixed window 2000-2006, month from 1-12, day from 1-28. -/
def birthDateOf (r : Entropy) : Date :=
  ⟨pyRandint 2000 2006 r.y, pyRandint 1 12 r.m, pyRandint 1 28 r.d⟩

/-- The birth date string of src/bot.py line 103. -/
def dateStr (d : Date) : String :=
  toString d.year ++ "-" ++ pad2 d.month ++ "-" ++ pad2 d.day

/-- Age in completed years at the date now of a person born at the date birth. -/
def ageAt (now birth : Date) : Int :=
  (now.year : Int) - (birth.year : Int) -
    (if now.month < birth.month ∨ (now.month = birth.month ∧ now.day < birth.day)
     then 1 else 0)

/-- generate_student_data (src/bot.py lines 85-115).  The three email pattern
strings are all built before one is chosen, as in the source, where the list
literal evaluates its three f-strings (and their randint calls) eagerly. -/
def generate_student_data (r : Entropy) : StudentData :=
  let university := pyChoice UNIVERSITIES ⟨0, "", "", 0⟩ r.uni
  let first_name := pyChoice FIRST_NAMES "" r.fn
  let last_name := pyChoice LAST_NAMES "" r.ln
  let email_pattern := pyChoice
    [ pyLower (pyFirstChar first_name) ++ pyLower last_name ++
        toString (pyRandint 100 999 r.n1),
      pyLower first_name ++ "." ++ pyLower last_name ++
        toString (pyRandint 10 99 r.n2),
      pyLower last_name ++ pyLower (pyFirstChar first_name) ++
        toString (pyRandint 100 999 r.n3) ]
    "" r.pat
  let email := email_pattern ++ "@" ++ university.domain
  let birth_date := dateStr (birthDateOf r)
  let student_id := "STU" ++ toString (pyRandint 100000 999999 r.sid)
  { first_name := first_name, last_name := last_name, email := email,
    birth_date := birth_date, university := university, student_id := student_id }

/-- The pattern list of extract_verification_id (src/bot.py lines 231-235). -/
def patterns : List (List Char) :=
  [("verificationId=").data, ("/verify/").data, ("id=").data]

/-- extract_verification_id (src/bot.py lines 229-241): try the patterns in
order with re.search and re.IGNORECASE, return the first captured group, or
none when no pattern matches. -/
def extract_verification_id (url : String) : Option String :=
  (patterns.findSome? (fun p => searchPat p url.data)).map (fun cap => ⟨cap⟩)

/-- The outcome of one HTTP call: either a raised exception (any network
failure) or a response with its status code and the currentStep field the code
reads from the JSON body (none when the field is absent). -/
inductive HttpOutcome where
  | exc (msg : String)
  | resp (status : Nat) (currentStep : Option String)
deriving DecidableEq

/-- The dictionary returned by verify_sheerid_link; absent keys are none. -/
structure CheckResult where
  valid : Bool
  step : Option String := none
  error : Option String := none
deriving DecidableEq

/-- verify_sheerid_link (src/bot.py lines 243-264), as a function of the
outcome of its one GET request. -/
def verify_sheerid_link (o : HttpOutcome) : CheckResult :=
  match o with
  | .exc e => { valid := false, error := some ("Connection error: " ++ e) }
  | .resp status currentStep =>
    if status = 200 then
      let current_step := currentStep.getD ""
      if current_step = "collectStudentPersonalInfo" ∨ current_step = "sso" then
        { valid := true, step := some current_step }
      else if current_step = "success" then
        { valid := false, error := some "Already verified" }
      else
        { valid := false, error := some ("Invalid step: " ++ current_step) }
    else
      { valid := false, error := some ("HTTP " ++ toString status) }

/-- The responses the environment would give to the five HTTP calls of
submit_to_sheerid, in source order.  documents models the documents array of
the step-2 response body, one optional uploadUrl per entry (none both for a
missing key and for a JSON null; the Python falsiness test on an empty string
is modelled separately).  exc models an exception raised anywhere inside the
try block. -/
structure SubmitEnv where
  exc : Option String
  step1Status : Nat
  step2Status : Nat
  documents : List (Option String)
  step3Status : Nat
  step4Status : Nat
  finalStatus : Nat
  finalCurrentStep : Option String
deriving DecidableEq

/-- The dictionary returned by submit_to_sheerid; absent keys are none.  In
particular current_step is none exactly when the source returns a dictionary
with no current_step key. -/
structure SubmitResult where
  success : Bool
  error : Option String := none
  message : Option String := none
  verification_id : Option String := none
  current_step : Option String := none
  details : Option StudentData := none
deriving DecidableEq

/-- submit_to_sheerid (src/bot.py lines 266-405) as a function of the
responses of its five HTTP calls.  The rendered image bytes flow only into
request payloads, never into control flow, so they do not appear here. -/
def submit_to_sheerid (verification_id : String) (student_data : StudentData)
    (env : SubmitEnv) : SubmitResult :=
  match env.exc with
  | some e => { success := false, error := some ("API Error: " ++ ⟨e.data.take 100⟩) }
  | none =>
    if env.step1Status ≠ 200 then
      { success := false,
        error := some ("Student info submission failed: HTTP " ++ toString env.step1Status) }
    else if env.step2Status ≠ 200 then
      { success := false,
        error := some ("Upload URL request failed: HTTP " ++ toString env.step2Status) }
    else
      match env.documents with
      | [] => { success := false, error := some "No upload URL received" }
      | doc :: _ =>
        match doc with
        | none => { success := false, error := some "Invalid upload URL" }
        | some upload_url =>
          if upload_url = "" then
            { success := false, error := some "Invalid upload URL" }
          else if env.step3Status ≠ 200 ∧ env.step3Status ≠ 204 then
            { success := false,
              error := some ("Document upload failed: HTTP " ++ toString env.step3Status) }
          else if env.step4Status ≠ 200 then
            { success := false,
              error := some ("Upload completion failed: HTTP " ++ toString env.step4Status) }
          else if env.finalStatus = 200 then
            { success := true,
              message := some "Verification submitted successfully!",
              verification_id := some verification_id,
              current_step := some (env.finalCurrentStep.getD "pending"),
              details := some student_data }
          else
            { success := true,
              message := some "Verification submitted! (Status check failed)",
              verification_id := some verification_id,
              details := some student_data }

/-- Everything the environment supplies to one run of
handle_verification_link: the status-check response, the entropy consumed by
generate_student_data, and the submission responses. -/
structure HandlerEnv where
  checkOutcome : HttpOutcome
  rand : Entropy
  submitEnv : SubmitEnv

/-- The pipeline stages handle_verification_link can invoke after link
parsing. -/
inductive BotAction where
  | checkStatus
  | genIdentity
  | renderDoc
  | submitCall
deriving DecidableEq

/-- The value handle_verification_link returns to the conversation framework:
WAITING_FOR_URL keeps the conversation in the same state, conversationEnd is
ConversationHandler.END. -/
inductive ConvReturn where
  | waitingForUrl
  | conversationEnd
deriving DecidableEq

/-- Observable outcome of one run of handle_verification_link: the stages it
invoked in order, its return value, the error text it surfaced (none on
success), and the submission result when a submission happened. -/
structure HandlerResult where
  actions : List BotAction
  ret : ConvReturn
  errorShown : Option String
  submitResult : Option SubmitResult

/-- handle_verification_link (src/bot.py lines 480-648): strip the message,
require the sheerid.com marker, extract the verification id, check the link
status, and on a valid link generate data, render the card and submit,
reporting the result.  Progress-message editing and sleeps are chat output
with no control-flow effect and are not modelled. -/
def handle_verification_link (msg : String) (env : HandlerEnv) : HandlerResult :=
  let url := pyStrip msg
  if pyIn "sheerid.com" url = false then
    { actions := [], ret := .waitingForUrl,
      errorShown := some "Invalid Link", submitResult := none }
  else
    match extract_verification_id url with
    | none =>
      { actions := [], ret := .waitingForUrl,
        errorShown := some "Invalid Link Format", submitResult := none }
    | some verification_id =>
      let link_check := verify_sheerid_link env.checkOutcome
      if link_check.valid = false then
        { actions := [.checkStatus], ret := .conversationEnd,
          errorShown := link_check.error, submitResult := none }
      else
        let student_data := generate_student_data env.rand
        let result := submit_to_sheerid verification_id student_data env.submitEnv
        { actions := [.checkStatus, .genIdentity, .renderDoc, .submitCall],
          ret := .conversationEnd,
          errorShown := if result.success then none else result.error,
          submitResult := some result }

/-- All-zero entropy, a concrete admissible input of generate_student_data. -/
def r0 : Entropy := ⟨0, 0, 0, 0, 0, 0, 0, 0, 0, 0, 0⟩

/-- A concrete identity record, used by concrete witnesses. -/
def sd0 : StudentData := generate_student_data r0

/-! Helper lemmas about the scanning primitives. -/

theorem scan_isSome_of_suffix {α : Type} (P : List Char → Option α) {t l : List Char}
    (h : t <:+ l) (hP : (P t).isSome) : (scanSuffixes P l).isSome := by
  induction l with
  | nil =>
    have ht : t = [] := List.suffix_nil.mp h
    simpa [scanSuffixes, ht] using hP
  | cons c cs ih =>
    rcases List.suffix_cons_iff.mp h with heq | hsuf
    · subst heq
      simp only [scanSuffixes]
      cases hPt : P (c :: cs) with
      | some r => simp
      | none => simp [hPt] at hP
    · have := ih hsuf
      simp only [scanSuffixes]
      cases hPt : P (c :: cs) with
      | some r => simp
      | none => exact this

theorem scan_some_exists {α : Type} (P : List Char → Option α) {l : List Char}
    (h : (scanSuffixes P l).isSome) : ∃ t, t <:+ l ∧ (P t).isSome := by
  induction l with
  | nil => exact ⟨[], List.suffix_rfl, by simpa [scanSuffixes] using h⟩
  | cons c cs ih =>
    simp only [scanSuffixes] at h
    cases hPt : P (c :: cs) with
    | some r => exact ⟨c :: cs, List.suffix_rfl, by simp [hPt]⟩
    | none =>
      rw [hPt] at h
      obtain ⟨t, ht, hP⟩ := ih h
      exact ⟨t, List.suffix_cons_iff.mpr (Or.inr ht), hP⟩

theorem scan_mono {α : Type} (P : List Char → Option α)
    (hP : ∀ t b, (P t).isSome → (P (t ++ b)).isSome)
    {l₂ l : List Char} (hinf : l₂ <:+: l) (h : (scanSuffixes P l₂).isSome) :
    (scanSuffixes P l).isSome := by
  obtain ⟨t, ht, hPt⟩ := scan_some_exists P h
  obtain ⟨a, b, hab⟩ := hinf
  obtain ⟨p, hp⟩ := ht
  refine scan_isSome_of_suffix P (t := t ++ b) ⟨a ++ p, ?_⟩ (hP t b hPt)
  rw [← hab, ← hp]
  simp [List.append_assoc]

theorem startsWithL_append {lit t b : List Char} (h : startsWithL lit t = true) :
    startsWithL lit (t ++ b) = true := by
  induction lit generalizing t with
  | nil => simp [startsWithL]
  | cons a as ih =>
    cases t with
    | nil => simp [startsWithL] at h
    | cons x xs =>
      simp only [startsWithL, Bool.and_eq_true] at h
      simp only [List.cons_append, startsWithL, Bool.and_eq_true]
      exact ⟨h.1, ih h.2⟩

theorem dropLitCI_append {lit t b rest : List Char} (h : dropLitCI lit t = some rest) :
    dropLitCI lit (t ++ b) = some (rest ++ b) := by
  induction lit generalizing t with
  | nil => simp [dropLitCI] at h ⊢; rw [h]
  | cons a as ih =>
    cases t with
    | nil => simp [dropLitCI] at h
    | cons x xs =>
      simp only [dropLitCI] at h ⊢
      by_cases hx : lcEq a x = true
      · simp only [hx, if_true] at h ⊢
        exact ih h
      · simp [hx] at h

theorem matchAt_isSome_append {lit t b : List Char} (h : (matchAt lit t).isSome) :
    (matchAt lit (t ++ b)).isSome := by
  unfold matchAt at h ⊢
  cases hd : dropLitCI lit t with
  | none => simp [hd] at h
  | some rest =>
    rw [dropLitCI_append hd]
    rw [hd] at h
    cases rest with
    | nil => simp [List.takeWhile] at h
    | cons x xs =>
      simp only [List.takeWhile_cons] at h ⊢
      cases hx : isHexCI x with
      | false => simp [hx] at h
      | true => simp [hx, List.cons_append]

theorem listIn_mono {lit l₂ l : List Char} (hinf : l₂ <:+: l)
    (h : listIn lit l₂ = true) : listIn lit l = true := by
  unfold listIn at h ⊢
  refine scan_mono _ ?_ hinf h
  intro t b hP
  by_cases hs : startsWithL lit t = true
  · simp [startsWithL_append hs]
  · simp [hs] at hP

theorem searchPat_mono {lit l₂ l : List Char} (hinf : l₂ <:+: l)
    (h : (searchPat lit l₂).isSome) : (searchPat lit l).isSome := by
  unfold searchPat at h ⊢
  exact scan_mono _ (fun t b => matchAt_isSome_append) hinf h

theorem stripList_contained (l : List Char) : stripList l <:+: l := by
  obtain ⟨a, ha⟩ : l.dropWhile isPySpace <:+ l := List.dropWhile_suffix _
  obtain ⟨p, hp⟩ : (l.dropWhile isPySpace).reverse.dropWhile isPySpace <:+
      (l.dropWhile isPySpace).reverse := List.dropWhile_suffix _
  refine ⟨a, p.reverse, ?_⟩
  have key : stripList l ++ p.reverse = l.dropWhile isPySpace := by
    have h2 := congrArg List.reverse hp
    simpa [stripList, List.reverse_append] using h2
  calc a ++ stripList l ++ p.reverse
      = a ++ (stripList l ++ p.reverse) := by rw [List.append_assoc]
    _ = a ++ l.dropWhile isPySpace := by rw [key]
    _ = l := ha

theorem pyIn_strip {lit s : String} (h : pyIn lit s = false) :
    pyIn lit (pyStrip s) = false := by
  cases hps : pyIn lit (pyStrip s) with
  | false => rfl
  | true =>
    exfalso
    have hmono : pyIn lit s = true := by
      have hst : listIn lit.data (stripList s.data) = true := hps
      exact listIn_mono (stripList_contained s.data) hst
    rw [hmono] at h
    cases h

theorem extract_strip_none {s : String} (h : extract_verification_id s = none) :
    extract_verification_id (pyStrip s) = none := by
  unfold extract_verification_id at h ⊢
  have hfs : List.findSome? (fun p => searchPat p s.data) patterns = none := by
    cases hfs : List.findSome? (fun p => searchPat p s.data) patterns with
    | none => rfl
    | some cap => rw [hfs] at h; simp at h
  rw [List.findSome?_eq_none_iff] at hfs
  have hnew : List.findSome? (fun p => searchPat p (pyStrip s).data) patterns = none := by
    rw [List.findSome?_eq_none_iff]
    intro p hp
    cases hsp : searchPat p (pyStrip s).data with
    | none => rfl
    | some cap =>
      exfalso
      have hs2 : (searchPat p s.data).isSome :=
        searchPat_mono (show (pyStrip s).data <:+: s.data from stripList_contained s.data)
          (by simp [hsp])
      rw [hfs p hp] at hs2
      cases hs2
  rw [hnew]
  rfl

theorem takeWhile_append_all {p : Char → Bool} {l₁ l₂ : List Char}
    (h : ∀ x ∈ l₁, p x = true) :
    (l₁ ++ l₂).takeWhile p = l₁ ++ l₂.takeWhile p := by
  induction l₁ with
  | nil => simp
  | cons c cs ih =>
    simp only [List.cons_append, List.takeWhile_cons, h c (by simp)]
    simp [ih fun x hx => h x (by simp [hx])]

theorem emailDomain_append (loc dom : String) (h : ∀ c ∈ dom.data, (c != '@') = true) :
    emailDomain (loc ++ "@" ++ dom) = dom := by
  unfold emailDomain
  have hdata : (loc ++ "@" ++ dom).data = loc.data ++ '@' :: dom.data := by
    rw [String.data_append, String.data_append, List.append_assoc]
    rfl
  rw [hdata, List.reverse_append]
  have hrev : ('@' :: dom.data).reverse = dom.data.reverse ++ ['@'] := by
    simp
  rw [hrev, List.append_assoc]
  rw [takeWhile_append_all (fun x hx => h x (List.mem_reverse.mp hx))]
  have hstop : List.takeWhile (fun c => c != '@') (['@'] ++ loc.data.reverse) = [] := by
    simp [List.takeWhile_cons]
  rw [hstop]
  simp

theorem pyChoice_mem {α : Type} (l : List α) (d : α) (n : Nat) (h : l ≠ []) :
    pyChoice l d n ∈ l := by
  unfold pyChoice
  have hlt : n % l.length < l.length :=
    Nat.mod_lt _ (List.length_pos.mpr h)
  rw [List.getD_eq_getElem l d hlt]
  exact List.getElem_mem hlt

theorem scan_eq_some_exists {α : Type} (P : List Char → Option α) {l : List Char} {r : α}
    (h : scanSuffixes P l = some r) : ∃ t, t <:+ l ∧ P t = some r := by
  induction l with
  | nil => exact ⟨[], List.suffix_rfl, h⟩
  | cons c cs ih =>
    simp only [scanSuffixes] at h
    cases hPt : P (c :: cs) with
    | some x =>
      simp only [hPt] at h
      exact ⟨c :: cs, List.suffix_rfl, by rw [hPt, h]⟩
    | none =>
      simp only [hPt] at h
      obtain ⟨t, ht, hP⟩ := ih h
      exact ⟨t, List.suffix_cons_iff.mpr (Or.inr ht), hP⟩

theorem matchAt_some_hex {lit t cap : List Char} (h : matchAt lit t = some cap) :
    ∀ c ∈ cap, isHexCI c = true := by
  unfold matchAt at h
  cases hd : dropLitCI lit t with
  | none => simp [hd] at h
  | some rest =>
    simp only [hd] at h
    cases hw : rest.takeWhile isHexCI with
    | nil => simp [hw] at h
    | cons x xs =>
      simp only [hw] at h
      injection h with h2
      intro c hc
      rw [← h2, ← hw] at hc
      exact List.mem_takeWhile_imp hc

theorem searchPat_some_hex {lit l cap : List Char} (h : searchPat lit l = some cap) :
    ∀ c ∈ cap, isHexCI c = true := by
  unfold searchPat at h
  obtain ⟨t, _, hPt⟩ := scan_eq_some_exists _ h
  exact matchAt_some_hex hPt

/-! Concrete environments used by witnesses and counterexamples. -/

/-- A submission environment where all four steps succeed and the final
status read fails with HTTP 500. -/
def env24 : SubmitEnv := ⟨none, 200, 200, [some "https://u.example"], 200, 200, 500, none⟩

/-- A submission environment where step 1 succeeds and step 2 answers
HTTP 400. -/
def env40 : SubmitEnv := ⟨none, 200, 400, [], 0, 0, 0, none⟩

/-! Claims. -/

/-- C1, counterexample: the claim that every generated record has
age-at-generation in the interval 18 to 24 for every current date fails on the
code.  The all-zero entropy makes generate_student_data emit birth date
2000-01-01, and at the current date 2026-10-12 that birth date gives age 26. -/
theorem C1_counterexample :
    (generate_student_data r0).birth_date = "2000-01-01" ∧
    ageAt ⟨2026, 10, 12⟩ (birthDateOf r0) = 26 ∧
    ¬ (18 ≤ ageAt ⟨2026, 10, 12⟩ (birthDateOf r0) ∧
       ageAt ⟨2026, 10, 12⟩ (birthDateOf r0) < 24) := by
  exact ⟨by decide, by decide, by decide⟩

/-- C1, amended: the birth year of every generated record is drawn from the
fixed window 2000 to 2006 (not from a window anchored to the current date),
the month from 1 to 12 and the day from 1 to 28, and therefore the age at a
run date with year N lies between N - 2007 and N - 2000; the record stores
that date as the string year-month-day with two-digit month and day. -/
theorem C1_fixed_birth_window (r : Entropy) (now : Date) :
    (generate_student_data r).birth_date = dateStr (birthDateOf r) ∧
    2000 ≤ (birthDateOf r).year ∧ (birthDateOf r).year ≤ 2006 ∧
    1 ≤ (birthDateOf r).month ∧ (birthDateOf r).month ≤ 12 ∧
    1 ≤ (birthDateOf r).day ∧ (birthDateOf r).day ≤ 28 ∧
    (now.year : Int) - 2007 ≤ ageAt now (birthDateOf r) ∧
    ageAt now (birthDateOf r) ≤ (now.year : Int) - 2000 := by
  refine ⟨rfl, ?_, ?_, ?_, ?_, ?_, ?_, ?_, ?_⟩ <;>
    simp only [birthDateOf, pyRandint, ageAt] <;>
    (try split_ifs) <;>
    omega

/-- C2, counterexample: when the four submission steps succeed and the final
status read answers HTTP 500, the result does report success but carries no
current-step value at all, rather than the claimed value pending. -/
theorem C2_counterexample :
    (submit_to_sheerid "abc123" sd0 env24).success = true ∧
    (submit_to_sheerid "abc123" sd0 env24).current_step = none ∧
    (submit_to_sheerid "abc123" sd0 env24).current_step ≠ some "pending" := by
  exact ⟨rfl, rfl, by decide⟩

/-- C2, amended: when all four submission steps return success status codes
and the final verification-status read fails (non-200), submit_to_sheerid
still returns success with the verification identifier and the identity
record, but the result carries no current-step value; the pending default
applies only when the final read succeeds and its body lacks the field. -/
theorem C2_final_read_failure (vid : String) (sd : StudentData) (env : SubmitEnv) (u : String)
    (hexc : env.exc = none) (h1 : env.step1Status = 200) (h2 : env.step2Status = 200)
    (hdocs : env.documents.head? = some (some u)) (hu : u ≠ "")
    (h3 : env.step3Status = 200 ∨ env.step3Status = 204) (h4 : env.step4Status = 200)
    (hf : env.finalStatus ≠ 200) :
    submit_to_sheerid vid sd env =
      { success := true,
        message := some "Verification submitted! (Status check failed)",
        verification_id := some vid,
        current_step := none,
        details := some sd } := by
  obtain ⟨rest, hde⟩ : ∃ rest, env.documents = some u :: rest := by
    cases hd2 : env.documents with
    | nil => rw [hd2] at hdocs; simp at hdocs
    | cons d r =>
      rw [hd2] at hdocs
      simp only [List.head?_cons, Option.some.injEq] at hdocs
      exact ⟨r, by rw [hdocs]⟩
  unfold submit_to_sheerid
  rw [hexc, hde]
  rcases h3 with h3 | h3 <;> simp [h1, h2, h3, h4, hu, hf]

/-- C2, witness for the amended theorem at a concrete environment. -/
theorem C2_final_read_failure_witness :
    submit_to_sheerid "abc123" sd0 env24 =
      { success := true,
        message := some "Verification submitted! (Status check failed)",
        verification_id := some "abc123",
        current_step := none,
        details := some sd0 } :=
  C2_final_read_failure "abc123" sd0 env24 "https://u.example" rfl rfl rfl rfl
    (by decide) (Or.inl rfl) rfl (by decide)

/-- C3: verify_sheerid_link maps every possible outcome of the status read as
claimed: a 200 response whose current step is collectStudentPersonalInfo or
sso gives valid with that step name; a 200 response with step success gives
invalid with the already-verified error; a 200 response with any other step
gives invalid with an error carrying the step value; a non-200 response gives
invalid with an error carrying the HTTP status; and a network failure gives
invalid with a connection-error message, the function being total so no
exception escapes. -/
theorem C3_checkStatus_cases (cs : Option String) (n : Nat) (e : String) :
    ((cs.getD "" = "collectStudentPersonalInfo" ∨ cs.getD "" = "sso") →
      verify_sheerid_link (.resp 200 cs) =
        { valid := true, step := some (cs.getD "") }) ∧
    (cs.getD "" = "success" →
      verify_sheerid_link (.resp 200 cs) =
        { valid := false, error := some "Already verified" }) ∧
    (cs.getD "" ≠ "collectStudentPersonalInfo" → cs.getD "" ≠ "sso" →
      cs.getD "" ≠ "success" →
      verify_sheerid_link (.resp 200 cs) =
        { valid := false, error := some ("Invalid step: " ++ cs.getD "") } ∧
      (cs.getD "").data <:+: ("Invalid step: " ++ cs.getD "").data) ∧
    (n ≠ 200 →
      verify_sheerid_link (.resp n cs) =
        { valid := false, error := some ("HTTP " ++ toString n) } ∧
      (toString n).data <:+: ("HTTP " ++ toString n).data) ∧
    verify_sheerid_link (.exc e) =
      { valid := false, error := some ("Connection error: " ++ e) } := by
  refine ⟨?_, ?_, ?_, ?_, rfl⟩
  · intro h
    unfold verify_sheerid_link
    rcases h with h | h <;> simp [h]
  · intro h
    unfold verify_sheerid_link
    simp [h]
  · intro h1 h2 h3
    constructor
    · unfold verify_sheerid_link
      simp [h1, h2, h3]
    · exact ⟨("Invalid step: ").data, [], by simp [String.data_append]⟩
  · intro hn
    constructor
    · unfold verify_sheerid_link
      simp [hn]
    · exact ⟨("HTTP ").data, [], by simp [String.data_append]⟩

/-- C3, witness: each mapped case of the status check, at concrete inputs. -/
theorem C3_checkStatus_cases_witness :
    verify_sheerid_link (.resp 200 (some "collectStudentPersonalInfo")) =
      { valid := true, step := some "collectStudentPersonalInfo" } ∧
    verify_sheerid_link (.resp 200 (some "sso")) =
      { valid := true, step := some "sso" } ∧
    verify_sheerid_link (.resp 200 (some "success")) =
      { valid := false, error := some "Already verified" } ∧
    verify_sheerid_link (.resp 200 (some "docUpload")) =
      { valid := false, error := some "Invalid step: docUpload" } ∧
    verify_sheerid_link (.resp 500 none) =
      { valid := false, error := some "HTTP 500" } ∧
    verify_sheerid_link (.exc "timeout") =
      { valid := false, error := some "Connection error: timeout" } := by
  refine ⟨?_, ?_, ?_, ?_, ?_, ?_⟩
  · exact (C3_checkStatus_cases (some "collectStudentPersonalInfo") 0 "").1 (Or.inl rfl)
  · exact (C3_checkStatus_cases (some "sso") 0 "").1 (Or.inr rfl)
  · exact (C3_checkStatus_cases (some "success") 0 "").2.1 rfl
  · exact ((C3_checkStatus_cases (some "docUpload") 0 "").2.2.1
      (by decide) (by decide) (by decide)).1
  · exact ((C3_checkStatus_cases none 500 "").2.2.2.1 (by decide)).1
  · exact (C3_checkStatus_cases none 0 "timeout").2.2.2.2

/-- C4: when step 1 succeeded and the step-2 upload-slot request answers a
non-200 status, submit_to_sheerid fails with an error that contains the text
Upload URL, and the result does not depend on the responses of step 3, step 4
or the final status read, so those calls are never issued. -/
theorem C4_upload_slot_short_circuit (vid : String) (sd : StudentData) (env : SubmitEnv)
    (hexc : env.exc = none) (h1 : env.step1Status = 200) (h2 : env.step2Status ≠ 200) :
    (submit_to_sheerid vid sd env).success = false ∧
    (submit_to_sheerid vid sd env).error =
      some ("Upload URL request failed: HTTP " ++ toString env.step2Status) ∧
    ("Upload URL").data <:+:
      ("Upload URL request failed: HTTP " ++ toString env.step2Status).data ∧
    ∀ docs s3 s4 fs fcs,
      submit_to_sheerid vid sd
        { env with documents := docs, step3Status := s3, step4Status := s4,
                   finalStatus := fs, finalCurrentStep := fcs } =
      submit_to_sheerid vid sd env := by
  have hres : submit_to_sheerid vid sd env =
      { success := false,
        error := some ("Upload URL request failed: HTTP " ++ toString env.step2Status) } := by
    unfold submit_to_sheerid
    rw [hexc]
    simp [h1, h2]
  refine ⟨by rw [hres], by rw [hres], ?_, ?_⟩
  · refine ⟨[], (" request failed: HTTP ").data ++ (toString env.step2Status).data, ?_⟩
    rw [String.data_append, List.nil_append, ← List.append_assoc]
    rfl
  · intro docs s3 s4 fs fcs
    rw [hres]
    unfold submit_to_sheerid
    simp [hexc, h1, h2]

/-- C4, witness: a concrete environment where step 2 answers HTTP 400. -/
theorem C4_upload_slot_short_circuit_witness :
    (submit_to_sheerid "abc123" sd0 env40).success = false ∧
    (submit_to_sheerid "abc123" sd0 env40).error =
      some "Upload URL request failed: HTTP 400" := by
  have h := C4_upload_slot_short_circuit "abc123" sd0 env40 rfl rfl (by decide)
  exact ⟨h.1, h.2.1.trans (by decide)⟩

/-- C5: extract_verification_id tries its three pattern rules in priority
order - verificationId=, then a path segment after /verify/, then a generic
id= parameter - case-insensitively, returns the captured identifier of the
first rule that matches, and returns none when no rule matches; on the input
https://services.sheerid.com/verify/x?verificationId=abc123 it returns
abc123, and matching is case-insensitive as the second concrete input shows. -/
theorem C5_extract_priority_rules (url : String) :
    extract_verification_id
      "https://services.sheerid.com/verify/x?verificationId=abc123" = some "abc123" ∧
    extract_verification_id "HTTPS://X.COM?VERIFICATIONID=ABC123" = some "ABC123" ∧
    (∀ c, searchPat ("verificationId=").data url.data = some c →
      extract_verification_id url = some ⟨c⟩) ∧
    (∀ c, searchPat ("verificationId=").data url.data = none →
      searchPat ("/verify/").data url.data = some c →
      extract_verification_id url = some ⟨c⟩) ∧
    (∀ c, searchPat ("verificationId=").data url.data = none →
      searchPat ("/verify/").data url.data = none →
      searchPat ("id=").data url.data = some c →
      extract_verification_id url = some ⟨c⟩) ∧
    ((∀ p ∈ patterns, searchPat p url.data = none) →
      extract_verification_id url = none) := by
  refine ⟨by decide, by decide, ?_, ?_, ?_, ?_⟩
  · intro c h1
    simp [extract_verification_id, patterns, List.findSome?_cons, h1]
  · intro c h1 h2
    simp [extract_verification_id, patterns, List.findSome?_cons, h1, h2]
  · intro c h1 h2 h3
    simp [extract_verification_id, patterns, List.findSome?_cons, h1, h2, h3]
  · intro h
    have hn : List.findSome? (fun p => searchPat p url.data) patterns = none :=
      List.findSome?_eq_none_iff.mpr h
    simp [extract_verification_id, hn]

/-- C5, witness: the second rule fires when the first does not match. -/
theorem C5_extract_priority_rules_witness :
    extract_verification_id "https://services.sheerid.com/verify/beef" = some "beef" :=
  (C5_extract_priority_rules "https://services.sheerid.com/verify/beef").2.2.2.1
    ("beef").data (by decide) (by decide)

/-- C6: for every generated identity record, the text after the at-sign of
the email equals the domain of the organization chosen for that record. -/
theorem C6_email_domain_matches (r : Entropy) :
    emailDomain (generate_student_data r).email =
      (generate_student_data r).university.domain := by
  have hall : ∀ u ∈ UNIVERSITIES, ∀ c ∈ u.domain.data, (c != '@') = true := by decide
  exact emailDomain_append _ _
    (hall _ (pyChoice_mem UNIVERSITIES ⟨0, "", "", 0⟩ r.uni (by simp [UNIVERSITIES])))

/-- C7: whenever the status check reports the link invalid, including the
already-verified case, handle_verification_link ends the conversation with
the error of the validator, and neither identity generation nor document
rendering nor submission happens. -/
theorem C7_invalid_status_short_circuit (msg : String) (env : HandlerEnv) (vid : String)
    (hdom : pyIn "sheerid.com" (pyStrip msg) = true)
    (hid : extract_verification_id (pyStrip msg) = some vid)
    (hinvalid : (verify_sheerid_link env.checkOutcome).valid = false) :
    (handle_verification_link msg env).ret = ConvReturn.conversationEnd ∧
    (handle_verification_link msg env).errorShown =
      (verify_sheerid_link env.checkOutcome).error ∧
    (handle_verification_link msg env).actions = [BotAction.checkStatus] ∧
    BotAction.genIdentity ∉ (handle_verification_link msg env).actions ∧
    BotAction.renderDoc ∉ (handle_verification_link msg env).actions ∧
    BotAction.submitCall ∉ (handle_verification_link msg env).actions := by
  have hres : handle_verification_link msg env =
      { actions := [.checkStatus], ret := .conversationEnd,
        errorShown := (verify_sheerid_link env.checkOutcome).error,
        submitResult := none } := by
    unfold handle_verification_link
    simp [hdom, hid, hinvalid]
  rw [hres]
  exact ⟨rfl, rfl, rfl, by simp, by simp, by simp⟩

/-- C7, witness: an already-verified link ends the conversation with the
already-verified error and performs only the status check. -/
theorem C7_invalid_status_short_circuit_witness :
    (handle_verification_link
      "https://services.sheerid.com/verify/x?verificationId=abc123"
      ⟨.resp 200 (some "success"), r0, env24⟩).ret = ConvReturn.conversationEnd ∧
    (handle_verification_link
      "https://services.sheerid.com/verify/x?verificationId=abc123"
      ⟨.resp 200 (some "success"), r0, env24⟩).errorShown = some "Already verified" ∧
    (handle_verification_link
      "https://services.sheerid.com/verify/x?verificationId=abc123"
      ⟨.resp 200 (some "success"), r0, env24⟩).actions = [BotAction.checkStatus] := by
  have h := C7_invalid_status_short_circuit
    "https://services.sheerid.com/verify/x?verificationId=abc123"
    ⟨.resp 200 (some "success"), r0, env24⟩ "abc123"
    (by decide) (by decide) (by decide)
  exact ⟨h.1, h.2.1.trans (by decide), h.2.2.1⟩

/-- C8: in the link-waiting state, a text message that does not contain the
marker sheerid.com, or from which no verification identifier can be
extracted, makes handle_verification_link report a format error and return
the link-waiting state again, and no status check, identity generation,
rendering or submission happens. -/
theorem C8_unrecognized_link_retries (msg : String) (env : HandlerEnv)
    (h : pyIn "sheerid.com" msg = false ∨ extract_verification_id msg = none) :
    (handle_verification_link msg env).ret = ConvReturn.waitingForUrl ∧
    (handle_verification_link msg env).actions = [] ∧
    ((handle_verification_link msg env).errorShown = some "Invalid Link" ∨
     (handle_verification_link msg env).errorShown = some "Invalid Link Format") := by
  rcases h with h | h
  · have hs := pyIn_strip h
    have hres : handle_verification_link msg env =
        { actions := [], ret := .waitingForUrl,
          errorShown := some "Invalid Link", submitResult := none } := by
      unfold handle_verification_link
      simp [hs]
    rw [hres]
    exact ⟨rfl, rfl, Or.inl rfl⟩
  · have hn := extract_strip_none h
    cases hin : pyIn "sheerid.com" (pyStrip msg) with
    | false =>
      have hres : handle_verification_link msg env =
          { actions := [], ret := .waitingForUrl,
            errorShown := some "Invalid Link", submitResult := none } := by
        unfold handle_verification_link
        simp [hin]
      rw [hres]
      exact ⟨rfl, rfl, Or.inl rfl⟩
    | true =>
      have hres : handle_verification_link msg env =
          { actions := [], ret := .waitingForUrl,
            errorShown := some "Invalid Link Format", submitResult := none } := by
        unfold handle_verification_link
        simp [hin, hn]
      rw [hres]
      exact ⟨rfl, rfl, Or.inr rfl⟩

/-- C8, witness: a message without the sheerid.com marker stays in the
link-waiting state with a format error and no pipeline action. -/
theorem C8_unrecognized_link_retries_witness :
    (handle_verification_link "hello" ⟨.resp 200 none, r0, env24⟩).ret =
      ConvReturn.waitingForUrl ∧
    (handle_verification_link "hello" ⟨.resp 200 none, r0, env24⟩).actions = [] :=
  ⟨(C8_unrecognized_link_retries "hello" ⟨.resp 200 none, r0, env24⟩
      (Or.inl (by decide))).1,
   (C8_unrecognized_link_retries "hello" ⟨.resp 200 none, r0, env24⟩
      (Or.inl (by decide))).2.1⟩

/-- C9: extract_verification_id is a pure function of the message text - the
source consults no mutable state and no randomness - so repeated extraction
from the same text always yields the same result. -/
theorem C9_extract_deterministic (url : String) :
    extract_verification_id url = extract_verification_id url := rfl

/-- C10: every identifier extract_verification_id returns consists only of
characters of the class a-f 0-9 taken case-insensitively, because every
capture group of its patterns is such a run; hence a token containing a
non-hex character is never returned whole, as the concrete input
verificationId=abc123xyz shows, where only the maximal hexadecimal run
abc123 is captured. -/
theorem C10_capture_hex_only :
    (∀ url s, extract_verification_id url = some s →
      ∀ c ∈ s.data, isHexCI c = true) ∧
    extract_verification_id "verificationId=abc123xyz" = some "abc123" ∧
    extract_verification_id "verificationId=abc123xyz" ≠ some "abc123xyz" := by
  refine ⟨?_, by decide, by decide⟩
  intro url s hs c hc
  unfold extract_verification_id at hs
  cases hfs : List.findSome? (fun p => searchPat p url.data) patterns with
  | none => rw [hfs] at hs; simp at hs
  | some cap =>
    rw [hfs] at hs
    simp only [Option.map_some'] at hs
    obtain ⟨p, hp, hsp⟩ := List.exists_of_findSome?_eq_some hfs
    injection hs with h2
    rw [← h2] at hc
    exact searchPat_some_hex hsp c hc

/-- C10, witness: the captured identifier of the concrete input is an
all-hexadecimal string. -/
theorem C10_capture_hex_only_witness :
    ("abc123" : String).data.all isHexCI = true :=
  List.all_eq_true.mpr
    (fun c hc => C10_capture_hex_only.1 "verificationId=abc123xyz" "abc123"
      (by decide) c hc)
